import Mathlib

/-!
Shallow embedding of the client-side logic of the gotex-ai-gold-assistant
React frontend (a TypeScript single-page dashboard for gold trading).

Each React component instance is modelled as a record of its useState cells,
extended where needed with observable effect logs (network requests issued,
registry refreshes triggered, callback invocations).  An async handler is
modelled as a function from the pre-call state and the outcome of its single
fetch to the post-call state; the fetch outcome is an explicit argument so
that success, HTTP failure (non-2xx) and transport failure can all be
examined.  Browser local storage is modelled as an optional stored value.
JavaScript truthiness of strings and numbers is modelled explicitly.
Numeric payload fields are modelled as integers; no arithmetic is performed
on them anywhere in the embedded code.
-/

namespace Gotex

/-- Outcome of one browser fetch call: the promise rejects with a message
(transport failure, including a failing body decode), or an HTTP response
arrives with its ok flag (2xx) and an already-decoded JSON body. -/
inductive FetchOutcome (α : Type) where
  | failure (msg : String)
  | response (ok : Bool) (body : α)
deriving Repr, DecidableEq

/-- JavaScript disjunction a or-else b on a possibly absent string:
undefined, null and the empty string are falsy. -/
def jsOrStr (a : Option String) (b : String) : String :=
  match a with
  | none => b
  | some s => if s = "" then b else s

/-- JavaScript disjunction a or-else b on a possibly absent number:
absent values and zero are falsy. -/
def jsOrNum (a : Option Int) (b : Int) : Int :=
  match a with
  | none => b
  | some n => if n = 0 then b else n

/-- JS String trim: strip whitespace from both ends of the string.  (The
Lean builtin String.trim is defined through Substring auxiliaries that do
not reduce in the kernel, so this equivalent list-based form is used to
keep concrete instances decidable.) -/
def jsTrim (s : String) : String :=
  String.mk
    (((s.data.dropWhile Char.isWhitespace).reverse.dropWhile
        Char.isWhitespace).reverse)

/-- One entry of the QueryHistory list kept by QueryInterface.tsx (its
QueryHistory interface): id, question, answer, timestamp and optional
sources.  Timestamps and Date.now() values are epoch milliseconds,
modelled as naturals. -/
structure QueryRecord where
  id : String
  question : String
  answer : String
  timestamp : Nat
  sources : Option (List String)
deriving Repr, DecidableEq

/-- Decoded body of a response from the query endpoint, as read by
QueryInterface.tsx: answer, optional sources, optional error field. -/
structure QueryBody where
  answer : String
  sources : Option (List String)
  error : Option String
deriving Repr, DecidableEq

/-- State of one QueryInterface component instance: its useState cells,
the browser-local storage cell under the queryHistory key, and a counter
of query POSTs issued.  The storage cell holds the JSON-serialised record
list; since JSON.stringify is injective on these records, the serialised
value is identified with the list itself. -/
structure QueryState where
  query : String
  answer : String
  loading : Bool
  error : String
  queryHistory : List QueryRecord
  showHistory : Bool
  sources : List String
  storage : Option (List QueryRecord)
  networkCalls : Nat
deriving Repr, DecidableEq

/-- The useState defaults of QueryInterface.tsx, with empty storage and no
network calls issued yet. -/
def initQueryState : QueryState :=
  { query := "", answer := "", loading := false, error := "",
    queryHistory := [], showHistory := false, sources := [],
    storage := none, networkCalls := 0 }

/-- saveQueryHistory from QueryInterface.tsx: the new record is put at the
front of the history, the combined list is cut to at most 20 entries, the
state cell is replaced by the cut list, and the same cut list is written
wholesale to local storage. -/
def saveQueryHistory (s : QueryState) (newQuery : QueryRecord) : QueryState :=
  let updated := (newQuery :: s.queryHistory).take 20
  { s with queryHistory := updated, storage := some updated }

/-- The record built in the success branch of handleQuery: id is the
Date.now() value rendered as a string, question is the current query text,
answer and sources come from the response body. -/
def mkQueryRecord (question : String) (now : Nat) (body : QueryBody) : QueryRecord :=
  { id := toString now, question := question, answer := body.answer,
    timestamp := now, sources := body.sources }

/-- handleQuery from QueryInterface.tsx, one invocation from the blank-input
guard through the finally block.  A blank (whitespace-only) query returns
before any state change or network call.  Otherwise one POST is issued; on a
2xx response the answer and sources are shown and the history is saved; on a
non-2xx response the error field (or a fallback) is shown; on transport
failure a fixed connection error is shown.  The finally block clears the
loading flag. -/
def handleQuery (s : QueryState) (now : Nat) (outcome : FetchOutcome QueryBody) :
    QueryState :=
  if jsTrim s.query = "" then s
  else
    let s1 : QueryState :=
      { s with loading := true, error := "", answer := "", sources := [],
               networkCalls := s.networkCalls + 1 }
    let s2 : QueryState :=
      match outcome with
      | .failure _ =>
          { s1 with error := "Failed to connect to the server. Please try again." }
      | .response ok body =>
          if ok then
            saveQueryHistory
              { s1 with answer := body.answer, sources := body.sources.getD [] }
              (mkQueryRecord s.query now body)
          else
            { s1 with
                error := jsOrStr body.error
                  "An error occurred while processing your question." }
    { s2 with loading := false }

/-- handleHistoryClick from QueryInterface.tsx: copies the clicked record
into the active view (question, answer, sources) and hides the history
panel; no other state cell is touched and no fetch is made. -/
def handleHistoryClick (s : QueryState) (item : QueryRecord) : QueryState :=
  { s with query := item.question, answer := item.answer,
           sources := item.sources.getD [], showHistory := false }

/-- The disabled attribute of the Ask button of QueryInterface.tsx:
disabled while loading or while the query text is blank. -/
def askButtonDisabled (s : QueryState) : Bool :=
  s.loading || jsTrim s.query == ""

/-- Whether the Enter keypress on the query input of QueryInterface.tsx
invokes handleQuery: it requires the Enter key and the loading flag to be
off. -/
def queryKeyPressFires (s : QueryState) (key : String) : Bool :=
  key == "Enter" && !s.loading

/-- loadQueryHistory from QueryInterface.tsx.  The browser builtin
JSON.parse followed by the per-item timestamp re-wrapping is abstracted as
the function argument parse, whose none result models a thrown exception;
the surrounding try/catch turns any such exception into leaving the current
history untouched, and an absent storage value skips parsing entirely.
Only a successfully parsed value replaces the history list. -/
def loadQueryHistory (parse : String → Option (List QueryRecord))
    (saved : Option String) (history : List QueryRecord) : List QueryRecord :=
  match saved with
  | none => history
  | some s =>
    match parse s with
    | none => history
    | some parsed => parsed

/-- One user-visible round trip of a successful query: the question typed,
the Date.now() value at response time, and the 2xx response body. -/
structure QueryInput where
  question : String
  now : Nat
  body : QueryBody
deriving Repr, DecidableEq

/-- Type a question into the input and run handleQuery against a 2xx
response. -/
def successStep (s : QueryState) (inp : QueryInput) : QueryState :=
  handleQuery { s with query := inp.question } inp.now (.response true inp.body)

/-- A sequence of successful queries executed in order, oldest first. -/
def runSuccessfulQueries (s : QueryState) (inputs : List QueryInput) : QueryState :=
  inputs.foldl successStep s

/-- The history record produced by one successful query input. -/
def recordOf (inp : QueryInput) : QueryRecord :=
  mkQueryRecord inp.question inp.now inp.body

lemma take_append_take (n : Nat) (l₁ l₂ : List α) :
    (l₁ ++ l₂.take n).take n = (l₁ ++ l₂).take n := by
  rw [List.take_append_eq_append_take, List.take_append_eq_append_take,
    List.take_take, Nat.min_eq_left (Nat.sub_le n l₁.length)]

lemma successStep_queryHistory (s : QueryState) (inp : QueryInput)
    (hq : jsTrim inp.question ≠ "") :
    (successStep s inp).queryHistory = (recordOf inp :: s.queryHistory).take 20 := by
  simp [successStep, handleQuery, saveQueryHistory, recordOf, hq]

lemma successStep_storage (s : QueryState) (inp : QueryInput)
    (hq : jsTrim inp.question ≠ "") :
    (successStep s inp).storage = some ((recordOf inp :: s.queryHistory).take 20) := by
  simp [successStep, handleQuery, saveQueryHistory, recordOf, hq]

lemma runSuccessfulQueries_queryHistory (inputs : List QueryInput) :
    ∀ s : QueryState, inputs ≠ [] → (∀ inp ∈ inputs, jsTrim inp.question ≠ "") →
      (runSuccessfulQueries s inputs).queryHistory
        = ((inputs.map recordOf).reverse ++ s.queryHistory).take 20 := by
  induction inputs with
  | nil => intro s h _; exact absurd rfl h
  | cons i rest ih =>
    intro s _ hq
    have hstep := successStep_queryHistory s i (hq i (by simp))
    rcases eq_or_ne rest [] with hrest | hrest
    · subst hrest
      simpa [runSuccessfulQueries] using hstep
    · have hrun : runSuccessfulQueries s (i :: rest)
          = runSuccessfulQueries (successStep s i) rest := rfl
      rw [hrun, ih (successStep s i) hrest (fun inp h => hq inp (by simp [h])),
        hstep, take_append_take]
      simp [List.append_assoc]

lemma runSuccessfulQueries_storage (inputs : List QueryInput) :
    ∀ s : QueryState, inputs ≠ [] → (∀ inp ∈ inputs, jsTrim inp.question ≠ "") →
      (runSuccessfulQueries s inputs).storage
        = some (runSuccessfulQueries s inputs).queryHistory := by
  induction inputs with
  | nil => intro s h _; exact absurd rfl h
  | cons i rest ih =>
    intro s _ hq
    rcases eq_or_ne rest [] with hrest | hrest
    · subst hrest
      have h1 := successStep_storage s i (hq i (by simp))
      have h2 := successStep_queryHistory s i (hq i (by simp))
      simpa [runSuccessfulQueries, h2] using h1
    · exact ih (successStep s i) hrest (fun inp h => hq inp (by simp [h]))

lemma jsOrStr_ne_empty (a : Option String) (d : String) (hd : d ≠ "") :
    jsOrStr a d ≠ "" := by
  cases a with
  | none => simpa [jsOrStr] using hd
  | some s =>
    simp only [jsOrStr]
    split
    · exact hd
    · assumption

/-- C1: for every successful query a record with the Date.now() id is put at
the front of the history, the list is cut to 20 entries and persisted
wholesale; hence after any sequence of more than 20 successful queries the
history is exactly the 20 most recent records, most recent first, and the
persisted store equals the in-memory list after every mutation (that is,
after every nonempty run of successful queries). -/
theorem query_history_cap_and_persistence
    (s : QueryState) (inputs : List QueryInput)
    (hq : ∀ inp ∈ inputs, jsTrim inp.question ≠ "")
    (hn : 20 < inputs.length) :
    (runSuccessfulQueries s inputs).queryHistory
        = ((inputs.map recordOf).reverse).take 20 ∧
    (runSuccessfulQueries s inputs).queryHistory.length = 20 ∧
    (runSuccessfulQueries s inputs).storage
        = some (runSuccessfulQueries s inputs).queryHistory ∧
    ∀ i, 0 < i →
      (runSuccessfulQueries s (inputs.take i)).storage
        = some (runSuccessfulQueries s (inputs.take i)).queryHistory := by
  have hne : inputs ≠ [] := by
    intro h
    rw [h] at hn
    exact absurd hn (by decide)
  have hlen : 20 ≤ ((inputs.map recordOf).reverse).length := by
    simp only [List.length_reverse, List.length_map]
    omega
  have h1 := runSuccessfulQueries_queryHistory inputs s hne hq
  have h2 : (runSuccessfulQueries s inputs).queryHistory
      = ((inputs.map recordOf).reverse).take 20 := by
    rw [h1, List.take_append_of_le_length hlen]
  refine ⟨h2, ?_, runSuccessfulQueries_storage inputs s hne hq, ?_⟩
  · rw [h2, List.length_take]
    simp only [List.length_reverse, List.length_map]
    omega
  · intro i hi
    refine runSuccessfulQueries_storage (inputs.take i) s ?_
      (fun inp h => hq inp (List.take_subset i inputs h))
    intro h
    have := congrArg List.length h
    rw [List.length_take] at this
    simp only [List.length_nil] at this
    omega

/-- Concrete run of 21 successful queries used to instantiate the C1
theorem. -/
def c1Inputs : List QueryInput :=
  (List.range 21).map fun k =>
    { question := "q", now := k,
      body := { answer := "a", sources := none, error := none } }

/-- Witness for C1 at a concrete run of 21 successful queries starting from
the freshly mounted component. -/
theorem query_history_cap_and_persistence_witness :
    20 < c1Inputs.length ∧
    ((runSuccessfulQueries initQueryState c1Inputs).queryHistory
        = ((c1Inputs.map recordOf).reverse).take 20 ∧
     (runSuccessfulQueries initQueryState c1Inputs).queryHistory.length = 20 ∧
     (runSuccessfulQueries initQueryState c1Inputs).storage
        = some (runSuccessfulQueries initQueryState c1Inputs).queryHistory ∧
     ∀ i, 0 < i →
       (runSuccessfulQueries initQueryState (c1Inputs.take i)).storage
         = some (runSuccessfulQueries initQueryState (c1Inputs.take i)).queryHistory) :=
  ⟨by decide,
   query_history_cap_and_persistence initQueryState c1Inputs (by decide) (by decide)⟩

/-- C4: for every failing query (non-2xx response or transport failure) a
nonempty error message is displayed and the history is not modified: no
record is added and the persisted store is not rewritten. -/
theorem query_failure_displays_error_history_unchanged
    (s : QueryState) (now : Nat) (msg : String) (body : QueryBody)
    (hq : jsTrim s.query ≠ "") :
    ((handleQuery s now (.failure msg)).error
        = "Failed to connect to the server. Please try again." ∧
     (handleQuery s now (.failure msg)).queryHistory = s.queryHistory ∧
     (handleQuery s now (.failure msg)).storage = s.storage) ∧
    ((handleQuery s now (.response false body)).error
        = jsOrStr body.error "An error occurred while processing your question." ∧
     (handleQuery s now (.response false body)).error ≠ "" ∧
     (handleQuery s now (.response false body)).queryHistory = s.queryHistory ∧
     (handleQuery s now (.response false body)).storage = s.storage) := by
  have hne : jsOrStr body.error
      "An error occurred while processing your question." ≠ "" :=
    jsOrStr_ne_empty _ _ (by decide)
  refine ⟨⟨?_, ?_, ?_⟩, ?_, ?_, ?_, ?_⟩ <;>
    simp [handleQuery, hq, hne]

/-- A component state with a nonblank question typed, used to instantiate
the C4 theorem. -/
def c4State : QueryState := { initQueryState with query := "q" }

/-- Witness for C4 at a concrete state, transport failure and non-2xx
response. -/
theorem query_failure_displays_error_history_unchanged_witness :
    jsTrim c4State.query ≠ "" ∧
    (((handleQuery c4State 7 (.failure "down")).error
        = "Failed to connect to the server. Please try again." ∧
      (handleQuery c4State 7 (.failure "down")).queryHistory = c4State.queryHistory ∧
      (handleQuery c4State 7 (.failure "down")).storage = c4State.storage) ∧
     ((handleQuery c4State 7 (.response false
          { answer := "", sources := none, error := none })).error
        = jsOrStr none "An error occurred while processing your question." ∧
      (handleQuery c4State 7 (.response false
          { answer := "", sources := none, error := none })).error ≠ "" ∧
      (handleQuery c4State 7 (.response false
          { answer := "", sources := none, error := none })).queryHistory
        = c4State.queryHistory ∧
      (handleQuery c4State 7 (.response false
          { answer := "", sources := none, error := none })).storage
        = c4State.storage)) :=
  ⟨by decide,
   query_failure_displays_error_history_unchanged c4State 7 "down"
     { answer := "", sources := none, error := none } (by decide)⟩

/-- C7: selecting a history entry copies its question, answer and sources
into the active view without issuing any network call and without touching
the history or the persisted store. -/
theorem history_click_loads_cached_result
    (s : QueryState) (item : QueryRecord) (_hmem : item ∈ s.queryHistory) :
    (handleHistoryClick s item).query = item.question ∧
    (handleHistoryClick s item).answer = item.answer ∧
    (handleHistoryClick s item).sources = item.sources.getD [] ∧
    (handleHistoryClick s item).networkCalls = s.networkCalls ∧
    (handleHistoryClick s item).queryHistory = s.queryHistory ∧
    (handleHistoryClick s item).storage = s.storage := by
  simp [handleHistoryClick]

/-- A cached history record used to instantiate the C7 theorem. -/
def c7Record : QueryRecord :=
  { id := "1", question := "q", answer := "a", timestamp := 0,
    sources := some ["babypips.com"] }

/-- A component state whose history holds the C7 record. -/
def c7State : QueryState := { initQueryState with queryHistory := [c7Record] }

/-- Witness for C7 at a concrete history entry. -/
theorem history_click_loads_cached_result_witness :
    c7Record ∈ c7State.queryHistory ∧
    ((handleHistoryClick c7State c7Record).query = c7Record.question ∧
     (handleHistoryClick c7State c7Record).answer = c7Record.answer ∧
     (handleHistoryClick c7State c7Record).sources = c7Record.sources.getD [] ∧
     (handleHistoryClick c7State c7Record).networkCalls = c7State.networkCalls ∧
     (handleHistoryClick c7State c7Record).queryHistory = c7State.queryHistory ∧
     (handleHistoryClick c7State c7Record).storage = c7State.storage) :=
  ⟨by decide, history_click_loads_cached_result c7State c7Record (by decide)⟩

/-- C9: loading the persisted history is total on malformed input.  An
absent storage value, or one on which the parse (JSON.parse plus the
timestamp re-wrapping) throws, leaves the current history untouched (in
particular an empty history stays empty), and only a successfully parsed
value replaces the history list. -/
theorem load_history_total_on_malformed
    (parse : String → Option (List QueryRecord)) (saved : Option String)
    (history : List QueryRecord) :
    (saved = none → loadQueryHistory parse saved history = history) ∧
    (∀ str, saved = some str → parse str = none →
        loadQueryHistory parse saved history = history) ∧
    (∀ str parsed, saved = some str → parse str = some parsed →
        loadQueryHistory parse saved history = parsed) ∧
    loadQueryHistory parse none [] = [] := by
  refine ⟨?_, ?_, ?_, rfl⟩
  · intro h
    subst h
    rfl
  · intro str h hp
    subst h
    simp [loadQueryHistory, hp]
  · intro str parsed h hp
    subst h
    simp [loadQueryHistory, hp]

/-- Upload mode toggle of FileUpload.tsx: plain file upload or YouTube URL
registration. -/
inductive UploadMode where
  | file
  | youtube
deriving Repr, DecidableEq

/-- Decoded body of a response from the upload endpoints (the
UploadResponse interface of FileUpload.tsx). -/
structure UploadResponse where
  filename : Option String
  file_type : String
  status : String
  url : Option String
  error : Option String
deriving Repr, DecidableEq

/-- One POST issued by the upload client: the endpoint path and the
file_type form field sent with it. -/
structure UploadRequest where
  endpoint : String
  file_type : String
deriving Repr, DecidableEq

/-- State of one FileUpload component instance (the variant of
FileUpload.tsx): its useState cells plus logs of the POSTs issued, the
registry refreshes (fetchFiles calls) triggered and the onUpload callback
invocations.  A selected File object is modelled by its name. -/
structure UploadState where
  selectedFile : Option String
  youtubeUrl : String
  uploadMode : UploadMode
  fileType : String
  uploadStatus : String
  requests : List UploadRequest
  registryRefreshes : Nat
  callbacks : List UploadResponse
deriving Repr, DecidableEq

/-- The useState defaults of FileUpload.tsx, with empty effect logs. -/
def initUploadState : UploadState :=
  { selectedFile := none, youtubeUrl := "", uploadMode := .file,
    fileType := "document", uploadStatus := "", requests := [],
    registryRefreshes := 0, callbacks := [] }

/-- The option values of the file-type select of FileUpload.tsx, in
document order. -/
def fileTypeOptions : List String := ["document", "image", "video", "audio"]

/-- handleFileTypeChange of FileUpload.tsx: store the chosen select value.
The browser only fires it with one of the option values of the select. -/
def handleFileTypeChange (s : UploadState) (value : String) : UploadState :=
  { s with fileType := value }

/-- handleUpload of FileUpload.tsx, one invocation from the empty-input
guards through the catch.  In file mode with no file selected, or in
YouTube mode with a blank URL, a local prompt is shown and the handler
returns before any state change or network call.  Otherwise the visible
status becomes Uploading, one POST is issued to the mode-appropriate
endpoint, and on a 2xx response the input is cleared, the registry is
refreshed once and the callback is invoked; a non-2xx response or a
transport failure shows an upload-failed message and triggers nothing
else. -/
def handleUpload (s : UploadState) (outcome : FetchOutcome UploadResponse) :
    UploadState :=
  if s.uploadMode = .file ∧ s.selectedFile = none then
    { s with uploadStatus := "Please select a file first." }
  else if s.uploadMode = .youtube ∧ jsTrim s.youtubeUrl = "" then
    { s with uploadStatus := "Please enter a YouTube URL." }
  else
    let s1 : UploadState := { s with uploadStatus := "Uploading..." }
    match s.uploadMode with
    | .file =>
      let s2 : UploadState :=
        { s1 with requests := s1.requests ++ [⟨"/upload/", s.fileType⟩] }
      match outcome with
      | .failure msg => { s2 with uploadStatus := "Upload failed: " ++ msg }
      | .response ok result =>
        if ok then
          { s2 with
              uploadStatus :=
                "File uploaded successfully: " ++ result.filename.getD "undefined",
              selectedFile := none,
              registryRefreshes := s2.registryRefreshes + 1,
              callbacks := s2.callbacks ++ [result] }
        else
          { s2 with
              uploadStatus := "Upload failed: " ++ jsOrStr result.error "Unknown error" }
    | .youtube =>
      let s2 : UploadState :=
        { s1 with requests := s1.requests ++ [⟨"/upload-youtube/", "video"⟩] }
      match outcome with
      | .failure msg => { s2 with uploadStatus := "Upload failed: " ++ msg }
      | .response ok result =>
        if ok then
          { s2 with
              uploadStatus :=
                "YouTube video processing started: " ++ result.url.getD "undefined",
              youtubeUrl := "",
              registryRefreshes := s2.registryRefreshes + 1,
              callbacks := s2.callbacks ++ [result] }
        else
          { s2 with
              uploadStatus := "Upload failed: " ++ jsOrStr result.error "Unknown error" }

/-- The disabled attribute of the submit button of FileUpload.tsx: in file
mode disabled without a selected file, in YouTube mode disabled while the
URL is blank. -/
def uploadButtonDisabled (s : UploadState) : Bool :=
  match s.uploadMode with
  | .file => s.selectedFile.isNone
  | .youtube => jsTrim s.youtubeUrl == ""

/-- Candle payload of the market endpoints (the CandleData interface of
marketService.ts).  The open, high, low and close fields are renamed with a
Price suffix because open is a Lean keyword; numeric fields are integers
and no arithmetic is performed on them. -/
structure CandleData where
  time : Int
  openPrice : Int
  highPrice : Int
  lowPrice : Int
  closePrice : Int
  volume : Option Int
deriving Repr, DecidableEq

/-- Body of a live-data response (the MarketData interface of
marketService.ts).  current_price is optional because the chart reads it
with a zero fallback. -/
structure MarketData where
  symbol : String
  current_price : Option Int
  data : List CandleData
  last_update : String
deriving Repr, DecidableEq

/-- Body of a market-status response (the MarketStatus interface of
marketService.ts).  status is optional because the chart reads it with an
Unknown fallback. -/
structure MarketStatus where
  status : Option String
  market_open : Bool
  last_update : String
deriving Repr, DecidableEq

/-- Body of a market-history response: the data field may be absent. -/
structure HistoryBody where
  data : Option (List CandleData)
deriving Repr, DecidableEq

/-- Body of a market-predict response: the predictions field may be
absent. -/
structure PredictBody where
  predictions : Option (List CandleData)
deriving Repr, DecidableEq

/-- MarketService getLiveData: a non-2xx response throws a fixed error, a
2xx response resolves to the decoded body; a rejected fetch propagates. -/
def getLiveData (outcome : FetchOutcome MarketData) : Except String MarketData :=
  match outcome with
  | .failure msg => .error msg
  | .response ok body =>
      if ok then .ok body else .error "Failed to fetch market data"

/-- MarketService getMarketStatus: a non-2xx response throws a fixed
error, a 2xx response resolves to the decoded body. -/
def getMarketStatus (outcome : FetchOutcome MarketStatus) :
    Except String MarketStatus :=
  match outcome with
  | .failure msg => .error msg
  | .response ok body =>
      if ok then .ok body else .error "Failed to fetch market status"

/-- MarketService getHistoricalData: a non-2xx response throws a fixed
error; on 2xx the data field is returned, defaulting to the empty list
when absent. -/
def getHistoricalData (outcome : FetchOutcome HistoryBody) :
    Except String (List CandleData) :=
  match outcome with
  | .failure msg => .error msg
  | .response ok body =>
      if ok then .ok (body.data.getD []) else .error "Failed to fetch historical data"

/-- MarketService getPredictions: a non-2xx response throws a fixed error;
on 2xx the predictions field is returned, defaulting to the empty list
when absent. -/
def getPredictions (outcome : FetchOutcome PredictBody) :
    Except String (List CandleData) :=
  match outcome with
  | .failure msg => .error msg
  | .response ok body =>
      if ok then .ok (body.predictions.getD []) else .error "Failed to fetch predictions"

/-- Display state of the TradingChart market panel: its useState cells. -/
structure ChartState where
  lastUpdate : String
  currentPrice : Int
  marketStatus : String
  isLoading : Bool
  error : Option String
deriving Repr, DecidableEq

/-- The useState defaults of the TradingChart component. -/
def initChartState : ChartState :=
  { lastUpdate := "", currentPrice := 0, marketStatus := "Unknown",
    isLoading := false, error := none }

/-- loadMarketData of the TradingChart component: sets the loading flag,
clears the error banner, awaits both the market-status and the live-data
service calls together, and only when both resolve updates the displayed
status, price and last-update time atomically; if either call rejects the
catch branch sets the single error banner and leaves the displayed values
untouched.  nowStr models the current wall-clock time string. -/
def loadMarketData (s : ChartState) (nowStr : String)
    (statusOutcome : FetchOutcome MarketStatus)
    (liveOutcome : FetchOutcome MarketData) : ChartState :=
  let s1 : ChartState := { s with isLoading := true, error := none }
  let s2 : ChartState :=
    match getMarketStatus statusOutcome, getLiveData liveOutcome with
    | .ok status, .ok liveData =>
        { s1 with marketStatus := jsOrStr status.status "Unknown",
                  currentPrice := jsOrNum liveData.current_price 0,
                  lastUpdate := nowStr }
    | _, _ => { s1 with error := some "Failed to load market data" }
  { s2 with isLoading := false }

/-- The disabled attribute of the manual Refresh button of the TradingChart
component: disabled while a refresh is outstanding. -/
def chartRefreshDisabled (s : ChartState) : Bool := s.isLoading

/-- Decoded body of a response from the query endpoint as read by the
section-based App shell, which only uses the answer field. -/
structure AppQueryBody where
  answer : String
deriving Repr, DecidableEq

/-- State of the section-based App shell of App.tsx: its query-related
useState cells plus a counter of query POSTs issued. -/
structure AppState where
  query : String
  answer : String
  loading : Bool
  error : String
  networkCalls : Nat
deriving Repr, DecidableEq

/-- handleQuery of the section-based App shell: no blank-input guard and no
loading guard; it always issues one POST.  A non-2xx response throws and is
caught with a fixed message; a transport failure is caught with the thrown
message or a fallback. -/
def appHandleQuery (s : AppState) (outcome : FetchOutcome AppQueryBody) :
    AppState :=
  let s1 : AppState :=
    { s with loading := true, error := "", answer := "",
             networkCalls := s.networkCalls + 1 }
  let s2 : AppState :=
    match outcome with
    | .failure msg => { s1 with error := jsOrStr (some msg) "Unknown error" }
    | .response ok body =>
        if ok then { s1 with answer := body.answer }
        else { s1 with error := "Network response was not ok" }
  { s2 with loading := false }

/-- The disabled attribute of the Ask button of the section-based App
shell: disabled while loading. -/
def appAskButtonDisabled (s : AppState) : Bool := s.loading

/-- Whether the Enter keypress on the query input of the section-based App
shell invokes handleQuery: it checks only the key, not the loading flag. -/
def appKeyPressFires (key : String) : Bool := key == "Enter"

/-- A parse function on which every input throws, modelling JSON.parse on a
string that is not valid JSON. -/
def c9Parse : String → Option (List QueryRecord) := fun _ => none

/-- Witness for C9: a present but unparseable storage value leaves an empty
history empty. -/
theorem load_history_total_on_malformed_witness :
    loadQueryHistory c9Parse (some "not json") [] = [] :=
  (load_history_total_on_malformed c9Parse (some "not json") []).2.1
    "not json" rfl rfl

lemma upload_failed_ne_uploading (x : String) :
    "Upload failed: " ++ x ≠ "Uploading..." := by
  intro h
  have hlen := congrArg String.length h
  rw [String.length_append] at hlen
  have h1 : ("Upload failed: ").length = 15 := rfl
  have h2 : ("Uploading...").length = 12 := rfl
  rw [h1, h2] at hlen
  omega

/-- C2: for every upload submission that passes the input guards (the
submit button is enabled), a POST whose outcome is a transport failure or a
non-2xx response leaves the upload client showing an upload-failed message
carrying the error: the visible status is no longer the in-flight
Uploading text, no registry refresh is triggered and the upload callback is
not invoked. -/
theorem upload_failure_idle_no_refresh
    (s : UploadState) (msg : String) (result : UploadResponse)
    (hguard : uploadButtonDisabled s = false) :
    ((handleUpload s (.failure msg)).uploadStatus = "Upload failed: " ++ msg ∧
     (handleUpload s (.failure msg)).uploadStatus ≠ "Uploading..." ∧
     (handleUpload s (.failure msg)).registryRefreshes = s.registryRefreshes ∧
     (handleUpload s (.failure msg)).callbacks = s.callbacks) ∧
    ((handleUpload s (.response false result)).uploadStatus
        = "Upload failed: " ++ jsOrStr result.error "Unknown error" ∧
     (handleUpload s (.response false result)).uploadStatus ≠ "Uploading..." ∧
     (handleUpload s (.response false result)).registryRefreshes
        = s.registryRefreshes ∧
     (handleUpload s (.response false result)).callbacks = s.callbacks) := by
  cases hmode : s.uploadMode with
  | file =>
    have hsel : ¬ s.selectedFile = none := by
      intro h
      simp [uploadButtonDisabled, hmode, h] at hguard
    simp [handleUpload, hmode, hsel, upload_failed_ne_uploading]
  | youtube =>
    have hurl : ¬ jsTrim s.youtubeUrl = "" := by
      intro h
      simp [uploadButtonDisabled, hmode, h] at hguard
    simp [handleUpload, hmode, hurl, upload_failed_ne_uploading]

/-- An upload state with a file selected, used to instantiate C2. -/
def c2State : UploadState :=
  { initUploadState with selectedFile := some "chart1.png" }

/-- A non-2xx response body used to instantiate C2. -/
def c2Resp : UploadResponse :=
  { filename := none, file_type := "image", status := "error", url := none,
    error := some "bad file" }

/-- Witness for C2 at a concrete state, transport failure and non-2xx
response. -/
theorem upload_failure_idle_no_refresh_witness :
    uploadButtonDisabled c2State = false ∧
    ((handleUpload c2State (.failure "net down")).uploadStatus
        = "Upload failed: " ++ "net down" ∧
     (handleUpload c2State (.failure "net down")).registryRefreshes
        = c2State.registryRefreshes ∧
     (handleUpload c2State (.response false c2Resp)).registryRefreshes
        = c2State.registryRefreshes) := by
  have h := upload_failure_idle_no_refresh c2State "net down" c2Resp (by decide)
  exact ⟨by decide, h.1.1, h.1.2.2.1, h.2.2.2.1⟩

/-- C3: blank inputs never reach the network.  With no file selected in
file mode, or a whitespace-only URL in YouTube mode, handleUpload returns
after setting only a local prompt: no POST is issued and the submit button
is disabled.  With a whitespace-only question, handleQuery is a complete
no-op (no POST, no state change, in particular no error is set) and the
ask button is disabled. -/
theorem blank_inputs_no_network
    (su : UploadState) (outcome : FetchOutcome UploadResponse)
    (sq : QueryState) (now : Nat) (outq : FetchOutcome QueryBody) :
    (su.uploadMode = .file → su.selectedFile = none →
      handleUpload su outcome
          = { su with uploadStatus := "Please select a file first." } ∧
      (handleUpload su outcome).requests = su.requests ∧
      uploadButtonDisabled su = true) ∧
    (su.uploadMode = .youtube → jsTrim su.youtubeUrl = "" →
      handleUpload su outcome
          = { su with uploadStatus := "Please enter a YouTube URL." } ∧
      (handleUpload su outcome).requests = su.requests ∧
      uploadButtonDisabled su = true) ∧
    (jsTrim sq.query = "" →
      handleQuery sq now outq = sq ∧ askButtonDisabled sq = true) := by
  refine ⟨?_, ?_, ?_⟩
  · intro hm hs
    refine ⟨?_, ?_, ?_⟩ <;> simp [handleUpload, uploadButtonDisabled, hm, hs]
  · intro hm hu
    refine ⟨?_, ?_, ?_⟩ <;> simp [handleUpload, uploadButtonDisabled, hm, hu]
  · intro hq
    exact ⟨by simp [handleQuery, hq], by simp [askButtonDisabled, hq]⟩

/-- Witness for C3 at the freshly mounted components: no file selected and
a blank question. -/
theorem blank_inputs_no_network_witness :
    (handleUpload initUploadState (.failure "x")).requests
        = initUploadState.requests ∧
    uploadButtonDisabled initUploadState = true ∧
    handleQuery initQueryState 0 (.failure "x") = initQueryState ∧
    askButtonDisabled initQueryState = true := by
  have h := blank_inputs_no_network initUploadState (.failure "x")
    initQueryState 0 (.failure "x")
  exact ⟨(h.1 rfl rfl).2.1, (h.1 rfl rfl).2.2, (h.2.2 (by decide)).1,
    (h.2.2 (by decide)).2⟩

/-- C5: when exactly one of the two awaited calls of a market-panel refresh
(the status call or the live-data call) fails, the displayed price and
status both keep their prior values (no partial update from the succeeding
call) and the single error banner is set. -/
theorem market_partial_failure_atomic
    (s : ChartState) (nowStr : String)
    (statusOutcome : FetchOutcome MarketStatus)
    (liveOutcome : FetchOutcome MarketData)
    (h : ((getMarketStatus statusOutcome).isOk = false ∧
            (getLiveData liveOutcome).isOk = true) ∨
         ((getMarketStatus statusOutcome).isOk = true ∧
            (getLiveData liveOutcome).isOk = false)) :
    (loadMarketData s nowStr statusOutcome liveOutcome).currentPrice
        = s.currentPrice ∧
    (loadMarketData s nowStr statusOutcome liveOutcome).marketStatus
        = s.marketStatus ∧
    (loadMarketData s nowStr statusOutcome liveOutcome).error
        = some "Failed to load market data" := by
  unfold loadMarketData
  rcases hs : getMarketStatus statusOutcome with e | st <;>
    rcases hl : getLiveData liveOutcome with e2 | lv <;>
      simp [hs, hl, Except.isOk, Except.toBool] at h ⊢

/-- A failing status call used to instantiate C5. -/
def c5Status : FetchOutcome MarketStatus :=
  .response false { status := none, market_open := false, last_update := "" }

/-- A succeeding live-data call used to instantiate C5. -/
def c5Live : FetchOutcome MarketData :=
  .response true
    { symbol := "XAUUSD", current_price := some 2000, data := [],
      last_update := "t" }

/-- Witness for C5: status call fails, live-data call succeeds, prior
display values survive. -/
theorem market_partial_failure_atomic_witness :
    ((getMarketStatus c5Status).isOk = false ∧
     (getLiveData c5Live).isOk = true) ∧
    ((loadMarketData initChartState "10:00" c5Status c5Live).currentPrice
        = initChartState.currentPrice ∧
     (loadMarketData initChartState "10:00" c5Status c5Live).marketStatus
        = initChartState.marketStatus ∧
     (loadMarketData initChartState "10:00" c5Status c5Live).error
        = some "Failed to load market data") :=
  ⟨by decide,
   market_partial_failure_atomic initChartState "10:00" c5Status c5Live
     (.inl (by decide))⟩

/-- C6 counterexample: the data/spreadsheet tag of the claimed five-member
enum is not among the option values of the file-type select of
FileUpload.tsx, so not every member of the claimed enum is selectable. -/
theorem file_type_enum_counterexample :
    "data/spreadsheet" ∉ fileTypeOptions ∧ "data" ∉ fileTypeOptions := by
  decide

/-- C6 amended: the file-type select of FileUpload.tsx offers exactly the
four tags document, image, video and audio, each selectable; in file mode
the POST carries the selected tag, and in YouTube mode the POST carries the
tag video. -/
theorem file_type_enum_amended
    (s : UploadState) (outcome outcome2 : FetchOutcome UploadResponse)
    (hft : s.fileType ∈ fileTypeOptions)
    (hsel : s.selectedFile ≠ none) (hurl : jsTrim s.youtubeUrl ≠ "") :
    fileTypeOptions = ["document", "image", "video", "audio"] ∧
    initUploadState.fileType ∈ fileTypeOptions ∧
    (∀ t ∈ fileTypeOptions, (handleFileTypeChange s t).fileType = t) ∧
    (handleUpload { s with uploadMode := .file } outcome).requests
        = s.requests ++ [{ endpoint := "/upload/", file_type := s.fileType }] ∧
    s.fileType ∈ ["document", "image", "video", "audio"] ∧
    (handleUpload { s with uploadMode := .youtube } outcome2).requests
        = s.requests ++ [{ endpoint := "/upload-youtube/", file_type := "video" }] := by
  refine ⟨rfl, by decide, fun t _ => rfl, ?_, hft, ?_⟩
  · cases outcome with
    | failure msg => simp [handleUpload, hsel]
    | response ok result => cases ok <;> simp [handleUpload, hsel]
  · cases outcome2 with
    | failure msg => simp [handleUpload, hurl]
    | response ok result => cases ok <;> simp [handleUpload, hurl]

/-- An upload state with both a selected file and a nonblank URL, used to
instantiate the amended C6. -/
def c6State : UploadState :=
  { initUploadState with
      selectedFile := some "a.mp4"
      youtubeUrl := "https://youtu.be/x"
      fileType := "audio" }

/-- Witness for the amended C6 at a concrete state. -/
theorem file_type_enum_amended_witness :
    c6State.fileType ∈ fileTypeOptions ∧
    ((handleUpload { c6State with uploadMode := .file } (.failure "x")).requests
        = c6State.requests
            ++ [{ endpoint := "/upload/", file_type := c6State.fileType }] ∧
     (handleUpload { c6State with uploadMode := .youtube } (.failure "x")).requests
        = c6State.requests
            ++ [{ endpoint := "/upload-youtube/", file_type := "video" }]) := by
  have h := file_type_enum_amended c6State (.failure "x") (.failure "x")
    (by decide) (by decide) (by decide)
  exact ⟨by decide, h.2.2.2.1, h.2.2.2.2.2⟩

/-- A section-based App shell state with one query outstanding. -/
def c8LoadingApp : AppState :=
  { query := "q", answer := "", loading := true, error := "",
    networkCalls := 1 }

/-- C8 counterexample: in the section-based App shell with a request
outstanding (loading set), the Enter keypress path still invokes its
handleQuery, which issues a second POST; so not every action path is
blocked while a request is in flight. -/
theorem single_flight_counterexample :
    c8LoadingApp.loading = true ∧
    appKeyPressFires "Enter" = true ∧
    (appHandleQuery c8LoadingApp (.response true { answer := "a" })).networkCalls
        = c8LoadingApp.networkCalls + 1 := by
  decide

/-- C8 amended: while a request is outstanding, the QueryInterface view
blocks both action paths (Ask button disabled, Enter keypress inert), and
the section-based App shell disables its Ask button but leaves the Enter
keypress ungated, so that path still issues a further POST. -/
theorem single_flight_amended
    (s : QueryState) (a : AppState) (key : String)
    (outcome : FetchOutcome AppQueryBody)
    (hs : s.loading = true) (ha : a.loading = true) :
    askButtonDisabled s = true ∧
    queryKeyPressFires s key = false ∧
    appAskButtonDisabled a = true ∧
    (appHandleQuery a outcome).networkCalls = a.networkCalls + 1 := by
  refine ⟨?_, ?_, ha, ?_⟩
  · simp [askButtonDisabled, hs]
  · simp [queryKeyPressFires, hs]
  · cases outcome with
    | failure msg => simp [appHandleQuery]
    | response ok body => cases ok <;> simp [appHandleQuery]

/-- A QueryInterface state with one query outstanding. -/
def c8QueryLoading : QueryState := { initQueryState with loading := true }

/-- Witness for the amended C8 at concrete loading states. -/
theorem single_flight_amended_witness :
    c8QueryLoading.loading = true ∧
    (askButtonDisabled c8QueryLoading = true ∧
     queryKeyPressFires c8QueryLoading "Enter" = false ∧
     appAskButtonDisabled c8LoadingApp = true ∧
     (appHandleQuery c8LoadingApp (.failure "x")).networkCalls
        = c8LoadingApp.networkCalls + 1) :=
  ⟨rfl,
   single_flight_amended c8QueryLoading c8LoadingApp "Enter" (.failure "x")
     rfl rfl⟩

/-- C10: on a 2xx response whose body lacks the expected collection field,
getHistoricalData resolves to the empty list when data is missing and
getPredictions resolves to the empty list when predictions is missing; on
every non-2xx response both throw their fixed error instead of returning a
value. -/
theorem missing_collection_defaults_nonok_throws :
    getHistoricalData (.response true { data := none }) = .ok [] ∧
    getPredictions (.response true { predictions := none }) = .ok [] ∧
    (∀ b : HistoryBody, getHistoricalData (.response false b)
        = .error "Failed to fetch historical data") ∧
    (∀ b : PredictBody, getPredictions (.response false b)
        = .error "Failed to fetch predictions") :=
  ⟨rfl, rfl, fun _ => rfl, fun _ => rfl⟩

end Gotex
